import Mathlib

/-!
Verification of the VPN configuration parser and connection manager in
`src/src-tauri/src/lib.rs` (the native backend of a desktop streaming
client).

Rust strings are modelled as lists of characters (`Str`).  Pure string
scanning functions are translated directly.  Operations that invoke
external commands (PowerShell, `sc`, `tasklist`) are modelled as pure
functions over a record describing the outcome the operating system
returns for each command the operation may issue.
-/

namespace ClaudeTv

/-- Rust `String` / `&str`, modelled as a list of characters. -/
abbrev Str := List Char

/-- The character list of a string literal. -/
def str (s : String) : Str := s.data

/-- Worker for `containsSub`: checks `sub` at every suffix of the second
argument. -/
def containsSub (sub : Str) : Str → Bool
  | [] => sub.isEmpty
  | c :: t => sub.isPrefixOf (c :: t) || containsSub sub t

/-- Rust `str::contains(sub)`: `sub` occurs as a contiguous substring of
`s` (argument order of the Rust method call). -/
def contains (s sub : Str) : Bool := containsSub sub s

/-- Rust `str::starts_with(pre)`. -/
def startsWith (s pre : Str) : Bool := pre.isPrefixOf s

/-- Whitespace test used by Rust `trim` / `split_whitespace`; the ASCII
fragment (space, tab, carriage return, line feed) that the configuration
formats use. -/
def isWs (c : Char) : Bool := c.isWhitespace

/-- Rust `str::trim`. -/
def trim (s : Str) : Str :=
  ((s.dropWhile isWs).reverse.dropWhile isWs).reverse

/-- Worker for `splitOnChar`; `acc` holds the current segment reversed. -/
def splitOnCharAux (sep : Char) : Str → Str → List Str
  | [], acc => [acc.reverse]
  | c :: t, acc =>
    if c = sep then acc.reverse :: splitOnCharAux sep t []
    else splitOnCharAux sep t (c :: acc)

/-- Rust `str::split(sep)` for a single-character pattern. -/
def splitOnChar (sep : Char) (s : Str) : List Str := splitOnCharAux sep s []

/-- Worker for `splitWhitespace`; `acc` holds the current token reversed. -/
def splitWhitespaceAux : Str → Str → List Str
  | [], acc => if acc.isEmpty then [] else [acc.reverse]
  | c :: t, acc =>
    if isWs c then
      if acc.isEmpty then splitWhitespaceAux t []
      else acc.reverse :: splitWhitespaceAux t []
    else splitWhitespaceAux t (c :: acc)

/-- Rust `str::split_whitespace`: the maximal runs of non-whitespace
characters, with no empty tokens. -/
def splitWhitespace (s : Str) : List Str := splitWhitespaceAux s []

/-- Strip one trailing carriage return (the CR of a CRLF line ending). -/
def stripCR (l : Str) : Str := if l.getLast? = some '\r' then l.dropLast else l

/-- Rust `str::lines`: split on the line feed character, strip a carriage
return before each split point, and yield no final empty line when the
text ends with a line terminator. -/
def rustLines (s : Str) : List Str :=
  let parts := splitOnChar '\n' s
  let parts := parts.dropLast.map stripCR ++ [parts.getLastD []]
  if parts.getLast? = some [] then parts.dropLast else parts

/-- Rust `Vec::join(sep)` on strings. -/
def joinSep (sep : Str) : List Str → Str
  | [] => []
  | [x] => x
  | x :: y :: t => x ++ sep ++ joinSep sep (y :: t)

/-- `VpnType` of the source. -/
inductive VpnType where
  | WireGuard
  | OpenVPN
deriving DecidableEq

/-- `VpnConfigInfo` of the source (the record `parse_vpn_config` returns). -/
structure VpnConfigInfo where
  vpn_type : VpnType
  endpoint : Option Str
  dns : Option Str
  address : Option Str
  is_valid : Bool
  error : Option Str
deriving DecidableEq

/-- `VpnStatus` of the source. -/
inductive VpnStatus where
  | Disconnected
  | Connecting
  | Connected
  | Disconnecting
  | Error
deriving DecidableEq

/-- `VpnStatusInfo` of the source. -/
structure VpnStatusInfo where
  status : VpnStatus
  vpn_type : Option VpnType
  tunnel_name : Option Str
  error : Option Str
deriving DecidableEq

/-- The mutable locals of the line loop of `parse_wireguard_config`. -/
structure WgScan where
  endpoint : Option Str
  dns : Option Str
  address : Option Str
  has_private_key : Bool
  has_public_key : Bool
deriving DecidableEq

/-- One iteration of the `for line in content.lines()` loop of
`parse_wireguard_config`. -/
def wgStep (st : WgScan) (line0 : Str) : WgScan :=
  let line := trim line0
  if startsWith line (str "Endpoint") then
    { st with endpoint := ((splitOnChar '=' line).get? 1).map trim }
  else if startsWith line (str "DNS") then
    { st with dns := ((splitOnChar '=' line).get? 1).map trim }
  else if startsWith line (str "Address") then
    { st with address := ((splitOnChar '=' line).get? 1).map trim }
  else if startsWith line (str "PrivateKey") then
    { st with has_private_key := true }
  else if startsWith line (str "PublicKey") then
    { st with has_public_key := true }
  else st

/-- `parse_wireguard_config` of the source. -/
def parse_wireguard_config (content : Str) : VpnConfigInfo :=
  let st := (rustLines content).foldl wgStep ⟨none, none, none, false, false⟩
  let is_valid := st.has_private_key && st.has_public_key && st.endpoint.isSome
  let error : Option Str :=
    if !is_valid then
      let missing : List Str :=
        (if !st.has_private_key then [str "PrivateKey"] else []) ++
        (if !st.has_public_key then [str "PublicKey"] else []) ++
        (if st.endpoint.isNone then [str "Endpoint"] else [])
      some (str "Missing required fields: " ++ joinSep (str ", ") missing)
    else none
  { vpn_type := .WireGuard, endpoint := st.endpoint, dns := st.dns,
    address := st.address, is_valid := is_valid, error := error }

/-- The mutable locals of the line loop of `parse_openvpn_config`. -/
structure OvScan where
  endpoint : Option Str
  dns : Option Str
  has_ca : Bool
deriving DecidableEq

/-- One iteration of the `for line in content.lines()` loop of
`parse_openvpn_config`.  The source indexes `parts[1]` behind a
`parts.len() >= 2` guard, which `List.getD` renders. -/
def ovStep (st : OvScan) (line0 : Str) : OvScan :=
  let line := trim line0
  if startsWith line (str "remote ") then
    let parts := splitWhitespace line
    if 2 ≤ parts.length then
      let host := parts.getD 1 []
      let port := (parts.get? 2).getD (str "1194")
      { st with endpoint := some (host ++ str ":" ++ port) }
    else st
  else if startsWith line (str "dhcp-option DNS") then
    { st with dns := (splitWhitespace line).getLast? }
  else if line == str "<ca>" || startsWith line (str "ca ") then
    { st with has_ca := true }
  else st

/-- The code after the line loop of `parse_openvpn_config`: validity and
diagnostic computation. -/
def ovFinish (st : OvScan) : VpnConfigInfo :=
  let is_valid := st.endpoint.isSome && st.has_ca
  let error : Option Str :=
    if !is_valid then
      let missing : List Str :=
        (if st.endpoint.isNone then [str "remote server"] else []) ++
        (if !st.has_ca then [str "CA certificate"] else [])
      some (str "Missing required fields: " ++ joinSep (str ", ") missing)
    else none
  { vpn_type := .OpenVPN, endpoint := st.endpoint, dns := st.dns,
    address := none, is_valid := is_valid, error := error }

/-- `parse_openvpn_config` of the source. -/
def parse_openvpn_config (content : Str) : VpnConfigInfo :=
  ovFinish ((rustLines content).foldl ovStep ⟨none, none, false⟩)

/-- The `is_wireguard` classification test of `parse_vpn_config`. -/
def is_wireguard_content (content : Str) : Bool :=
  contains content (str "[Interface]") && contains content (str "[Peer]")

/-- The `is_openvpn` classification test of `parse_vpn_config`. -/
def is_openvpn_content (content : Str) : Bool :=
  contains content (str "client") &&
    (contains content (str "<ca>") || contains content (str "remote "))

/-- `parse_vpn_config` of the source. -/
def parse_vpn_config (content : Str) : VpnConfigInfo :=
  if is_wireguard_content content then parse_wireguard_config content
  else if is_openvpn_content content then parse_openvpn_config content
  else
    { vpn_type := .WireGuard, endpoint := none, dns := none, address := none,
      is_valid := false,
      error := some (str "Unknown VPN configuration format. Expected WireGuard (.conf) or OpenVPN (.ovpn)") }

/-- Panic-aware variant of the `remote ` branch of the OpenVPN loop: the
source indexes `parts[1]` behind a `parts.len() >= 2` guard; an
out-of-bounds index (which would abort the Rust program) is modelled as
`none`. -/
def ovStepChecked (st : OvScan) (line0 : Str) : Option OvScan :=
  let line := trim line0
  if startsWith line (str "remote ") then
    let parts := splitWhitespace line
    if 2 ≤ parts.length then
      match parts.get? 1 with
      | none => none
      | some host =>
        let port := (parts.get? 2).getD (str "1194")
        some { st with endpoint := some (host ++ str ":" ++ port) }
    else some st
  else if startsWith line (str "dhcp-option DNS") then
    some { st with dns := (splitWhitespace line).getLast? }
  else if line == str "<ca>" || startsWith line (str "ca ") then
    some { st with has_ca := true }
  else some st

/-- Panic-aware `parse_openvpn_config`. -/
def parse_openvpn_config_checked (content : Str) : Option VpnConfigInfo :=
  ((rustLines content).foldlM ovStepChecked ⟨none, none, false⟩).map ovFinish

/-- Panic-aware `parse_vpn_config`.  The WireGuard scan and the
unknown-format branch perform no operation that can abort, so only the
OpenVPN path threads the `Option`. -/
def parse_vpn_config_checked (content : Str) : Option VpnConfigInfo :=
  if is_wireguard_content content then some (parse_wireguard_config content)
  else if is_openvpn_content content then parse_openvpn_config_checked content
  else
    some { vpn_type := .WireGuard, endpoint := none, dns := none, address := none,
           is_valid := false,
           error := some (str "Unknown VPN configuration format. Expected WireGuard (.conf) or OpenVPN (.ovpn)") }

/-- A whitespace-trimmed line starting with `PrivateKey` occurs. -/
def hasPrivateKeyLine (content : Str) : Bool :=
  (rustLines content).any fun l => startsWith (trim l) (str "PrivateKey")

/-- A whitespace-trimmed line starting with `PublicKey` occurs. -/
def hasPublicKeyLine (content : Str) : Bool :=
  (rustLines content).any fun l => startsWith (trim l) (str "PublicKey")

/-- The certificate-indicator test of the OpenVPN loop on one line. -/
def caLine (l : Str) : Bool :=
  trim l == str "<ca>" || startsWith (trim l) (str "ca ")

/-- A line that is a certificate indicator occurs. -/
def hasCaLine (content : Str) : Bool := (rustLines content).any caLine

/-- Endpoint contributed by a single configuration line: for a trimmed
line starting with `remote ` and splitting into at least two whitespace
tokens, token 1 as host and token 2 (default `1194`) as port. -/
def remoteEndpointOf (line0 : Str) : Option Str :=
  let line := trim line0
  if startsWith line (str "remote ") then
    let parts := splitWhitespace line
    if 2 ≤ parts.length then
      some (parts.getD 1 [] ++ str ":" ++ (parts.get? 2).getD (str "1194"))
    else none
  else none

/-- Captured outcome of a completed external command
(`std::process::Output`): exit-status success flag and both streams. -/
structure CmdOutput where
  success : Bool
  stdout : Str
  stderr : Str
deriving DecidableEq

/-- Outcome of spawning an external command; the `error` case is the
launcher itself failing (`Command::output()` returning an error). -/
abbrev CmdResult := Except Str CmdOutput

/-- Path separator characters accepted by `std::path` on Windows. -/
def isPathSep (c : Char) : Bool := c = '\\' || c = '/'

/-- Modelled after `std::path::Path::file_name` on Windows: the last
path component after dropping empty and current-directory components;
`none` for an empty path or one ending in a parent-directory component. -/
def fileName (p : Str) : Option Str :=
  let comps := ((splitOnChar '\\' p).map (splitOnChar '/')).flatten
  let comps := comps.filter fun c => !(c.isEmpty || c == str ".")
  match comps.getLast? with
  | none => none
  | some c => if c == str ".." then none else some c

/-- Modelled after `std::path::Path::file_stem`: the file name up to its
final dot; a name whose only dot is a leading one is kept whole. -/
def fileStem (p : Str) : Option Str :=
  (fileName p).map fun name =>
    let parts := splitOnChar '.' name
    if parts.length ≤ 1 then name
    else if parts.length == 2 && (parts.headD []).isEmpty then name
    else joinSep (str ".") parts.dropLast

/-- The tunnel name derived in `connect_wireguard`: the config file's
base name without extension, with the fixed fallback. -/
def wgTunnelName (config_path : Str) : Str :=
  (fileStem config_path).getD (str "claudetv_vpn")

/-- Outcomes the operating system returns for the external commands
`connect_wireguard` may issue: the existence probe for the WireGuard
executable, the elevated PowerShell launch, and the service query used
for verification. -/
structure WgConnectWorld where
  wireguard_installed : Bool
  powershell : CmdResult
  sc_query : CmdResult

/-- `connect_wireguard` of the source.  The fixed post-launch sleep has
no observable effect in this model and is elided. -/
def connect_wireguard (w : WgConnectWorld) (config_path : Str) :
    Except Str VpnStatusInfo :=
  let tunnel_name := wgTunnelName config_path
  if !w.wireguard_installed then
    .error (str "WireGuard is not installed. Please install WireGuard from https://www.wireguard.com/install/")
  else
    match w.powershell with
    | .error e => .error (str "Failed to start WireGuard: " ++ e)
    | .ok output =>
      let earlyFailure : Option Str :=
        if !output.success then
          if contains output.stderr (str "canceled") ||
              contains output.stderr (str "cancelled") ||
              contains output.stdout (str "canceled") then
            some (str "Connection cancelled. Administrator privileges are required.")
          else if contains output.stderr (str "already exists") ||
              contains output.stdout (str "already exists") then
            none
          else if !output.stderr.isEmpty then
            some (str "WireGuard failed: " ++ output.stderr)
          else none
        else none
      match earlyFailure with
      | some e => .error e
      | none =>
        let connected : VpnStatusInfo :=
          { status := .Connected, vpn_type := some .WireGuard,
            tunnel_name := some tunnel_name, error := none }
        match w.sc_query with
        | .ok check =>
          -- the source returns the same record whether or not the
          -- service query shows a RUNNING state
          if contains check.stdout (str "RUNNING") then .ok connected
          else .ok connected
        | .error _ => .ok connected

/-- Outcomes the operating system returns for the queries
`get_vpn_status` may issue: the service query for the derived WireGuard
tunnel service and the process-table listing. -/
structure StatusWorld where
  sc_query : CmdResult
  tasklist : CmdResult

/-- `get_vpn_status` of the source. -/
def get_vpn_status (w : StatusWorld) (tunnel_name : Option Str)
    (vpn_type : Option VpnType) : VpnStatusInfo :=
  let wgHit : Option VpnStatusInfo :=
    match tunnel_name with
    | some name =>
      if vpn_type = some VpnType.WireGuard ∨ vpn_type = none then
        match w.sc_query with
        | .ok output =>
          if contains output.stdout (str "RUNNING") then
            some { status := .Connected, vpn_type := some .WireGuard,
                   tunnel_name := some name, error := none }
          else none
        | .error _ => none
      else none
    | none => none
  match wgHit with
  | some r => r
  | none =>
    let ovHit : Option VpnStatusInfo :=
      if vpn_type = some VpnType.OpenVPN ∨ vpn_type = none then
        match w.tasklist with
        | .ok output =>
          if contains output.stdout (str "openvpn.exe") then
            some { status := .Connected, vpn_type := some .OpenVPN,
                   tunnel_name := some (str "openvpn"), error := none }
          else none
        | .error _ => none
      else none
    match ovHit with
    | some r => r
    | none =>
      { status := .Disconnected, vpn_type := none, tunnel_name := none,
        error := none }

/-- The WireGuard service query would report a RUNNING state. -/
def scRunning (w : StatusWorld) : Bool :=
  match w.sc_query with
  | .ok output => contains output.stdout (str "RUNNING")
  | .error _ => false

/-- The process table would list the OpenVPN executable. -/
def tasklistHasOpenvpn (w : StatusWorld) : Bool :=
  match w.tasklist with
  | .ok output => contains output.stdout (str "openvpn.exe")
  | .error _ => false

/-- The record every disconnect operation returns on success. -/
def disconnectedInfo : VpnStatusInfo :=
  { status := .Disconnected, vpn_type := none, tunnel_name := none,
    error := none }

/-- `disconnect_wireguard` of the source: after the launcher ran, error
output only produces a log line and never fails the call.  The tunnel
name is interpolated into the command string only. -/
def disconnect_wireguard (powershell : CmdResult) (_tunnel_name : Str) :
    Except Str VpnStatusInfo :=
  match powershell with
  | .error e => .error (str "Failed to stop WireGuard: " ++ e)
  | .ok _output => .ok disconnectedInfo

/-- `disconnect_openvpn` of the source: a non-success exit only produces
a log line. -/
def disconnect_openvpn (powershell : CmdResult) : Except Str VpnStatusInfo :=
  match powershell with
  | .error e => .error (str "Failed to stop OpenVPN: " ++ e)
  | .ok _output => .ok disconnectedInfo

/-- `disconnect_vpn` of the source. -/
def disconnect_vpn (powershell : CmdResult) (tunnel_name : Str)
    (vpn_type : VpnType) : Except Str VpnStatusInfo :=
  match vpn_type with
  | .WireGuard => disconnect_wireguard powershell tunnel_name
  | .OpenVPN => disconnect_openvpn powershell

/-! ### Concrete inputs used to instantiate and refute the claims -/

/-- Input with both WireGuard markers, OpenVPN markers and no fields. -/
def c1Sample : Str := str "[Interface]\nclient\nremote \n[Peer]"

/-- OpenVPN input with two `remote` lines that disagree. -/
def c2Cex : Str := str "client\nremote a 1\nremote b 2"

/-- OpenVPN input whose `remote` line has no port token. -/
def c2Sample : Str := str "client\nremote vpn.example.com\n"

/-- Input containing the substring `remote ` without any line starting
with it, and no certificate block opener. -/
def c3Cex : Str := str "client xremote y"

/-- OpenVPN input with a certificate block opener. -/
def c3Sample : Str := str "client\n<ca>"

/-- WireGuard input missing the private key and the endpoint. -/
def c4Sample : Str := str "[Interface]\nPublicKey = y\n[Peer]"

/-- OpenVPN input with a remote server but no certificate. -/
def c5Sample : Str := str "client\nremote vpn.example.com 443\n"

/-- A service-query output that carries no RUNNING indicator. -/
def c6ScOut : Str := str "SERVICE_NAME: WireGuardTunnel$home  STATE : 1  STOPPED"

/-- Connect outcomes where the launcher succeeds but the verification
query finds no RUNNING indicator. -/
def c6World : WgConnectWorld :=
  { wireguard_installed := true,
    powershell := .ok { success := true, stdout := [], stderr := [] },
    sc_query := .ok { success := true, stdout := c6ScOut, stderr := [] } }

/-- Config path whose base name yields the tunnel name `home`. -/
def c6Path : Str := str "C:\\vpn configs\\home.conf"

/-- Status-query outcomes whose process table lists the OpenVPN
executable. -/
def c7World : StatusWorld :=
  { sc_query := .ok { success := true, stdout := [], stderr := [] },
    tasklist := .ok { success := true,
                      stdout := str "openvpn.exe            4242 Console",
                      stderr := [] } }

/-- A completed launcher run with non-benign, non-cancellation error
text. -/
def c8Launch : CmdResult :=
  .ok { success := false, stdout := [],
        stderr := str "uninstall failed: access denied" }

/-! ### Sanity checks on concrete configurations -/

example : parse_vpn_config (str "[Interface]\nPrivateKey = x\nPublicKey = y\nEndpoint = 1.2.3.4:51820\n[Peer]") =
    { vpn_type := .WireGuard, endpoint := some (str "1.2.3.4:51820"), dns := none,
      address := none, is_valid := true, error := none } := by decide

example : parse_vpn_config (str "client\nremote vpn.example.com 443\n") =
    { vpn_type := .OpenVPN, endpoint := some (str "vpn.example.com:443"), dns := none,
      address := none, is_valid := false,
      error := some (str "Missing required fields: CA certificate") } := by decide

/-! ### Helper lemmas -/

/-- Two mutually non-prefix patterns cannot both be prefixes of one
string. -/
theorem prefix_excl {p q s : Str} (hpq : p.isPrefixOf q = false)
    (hqp : q.isPrefixOf p = false) (h : startsWith s p = true) :
    startsWith s q = false := by
  unfold startsWith at h ⊢
  by_contra hq
  rw [Bool.not_eq_false] at hq
  rw [ List.isPrefixOf_iff_prefix] at h hq
  rcases List.prefix_or_prefix_of_prefix h hq with h1 | h1
  · rw [← List.isPrefixOf_iff_prefix] at h1
    simp [hpq] at h1
  · rw [← List.isPrefixOf_iff_prefix] at h1
    simp [hqp] at h1

/-- A string starting with `p` cannot equal a string of which `p` is not
a prefix. -/
theorem startsWith_ne {t p q : Str} (h : startsWith t p = true)
    (hpq : p.isPrefixOf q = false) : (t == q) = false := by
  by_contra hq
  rw [Bool.not_eq_false, beq_iff_eq] at hq
  subst hq
  unfold startsWith at h
  exact Bool.noConfusion (h.symm.trans hpq)

/-- The private-key flag a loop iteration leaves behind. -/
theorem wgStep_private (st : WgScan) (l : Str) :
    (wgStep st l).has_private_key =
      (st.has_private_key || startsWith (trim l) (str "PrivateKey")) := by
  unfold wgStep
  by_cases h1 : startsWith (trim l) (str "Endpoint") = true
  · simp [h1, prefix_excl (q := str "PrivateKey") (by decide) (by decide) h1]
  · by_cases h2 : startsWith (trim l) (str "DNS") = true
    · simp [h1, h2, prefix_excl (q := str "PrivateKey") (by decide) (by decide) h2]
    · by_cases h3 : startsWith (trim l) (str "Address") = true
      · simp [h1, h2, h3,
          prefix_excl (q := str "PrivateKey") (by decide) (by decide) h3]
      · by_cases h4 : startsWith (trim l) (str "PrivateKey") = true
        · simp [h1, h2, h3, h4]
        · by_cases h5 : startsWith (trim l) (str "PublicKey") = true
          · simp [h1, h2, h3, h4, h5]
          · simp [h1, h2, h3, h4, h5]

/-- The public-key flag a loop iteration leaves behind. -/
theorem wgStep_public (st : WgScan) (l : Str) :
    (wgStep st l).has_public_key =
      (st.has_public_key || startsWith (trim l) (str "PublicKey")) := by
  unfold wgStep
  by_cases h1 : startsWith (trim l) (str "Endpoint") = true
  · simp [h1, prefix_excl (q := str "PublicKey") (by decide) (by decide) h1]
  · by_cases h2 : startsWith (trim l) (str "DNS") = true
    · simp [h1, h2, prefix_excl (q := str "PublicKey") (by decide) (by decide) h2]
    · by_cases h3 : startsWith (trim l) (str "Address") = true
      · simp [h1, h2, h3,
          prefix_excl (q := str "PublicKey") (by decide) (by decide) h3]
      · by_cases h4 : startsWith (trim l) (str "PrivateKey") = true
        · simp [h1, h2, h3, h4,
            prefix_excl (q := str "PublicKey") (by decide) (by decide) h4]
        · by_cases h5 : startsWith (trim l) (str "PublicKey") = true
          · simp [h1, h2, h3, h4, h5]
          · simp [h1, h2, h3, h4, h5]

/-- The certificate flag a loop iteration leaves behind. -/
theorem ovStep_ca (st : OvScan) (l : Str) :
    (ovStep st l).has_ca = (st.has_ca || caLine l) := by
  unfold ovStep caLine
  by_cases h1 : startsWith (trim l) (str "remote ") = true
  · have hne : (trim l == str "<ca>") = false := startsWith_ne h1 (by decide)
    have hca : startsWith (trim l) (str "ca ") = false :=
      prefix_excl (by decide) (by decide) h1
    by_cases h2 : 2 ≤ (splitWhitespace (trim l)).length
    · simp [h1, h2, hne, hca]
    · simp [h1, h2, hne, hca]
  · by_cases h2 : startsWith (trim l) (str "dhcp-option DNS") = true
    · have hne : (trim l == str "<ca>") = false := startsWith_ne h2 (by decide)
      have hca : startsWith (trim l) (str "ca ") = false :=
        prefix_excl (by decide) (by decide) h2
      simp [h1, h2, hne, hca]
    · by_cases h3 : (trim l == str "<ca>" || startsWith (trim l) (str "ca ")) = true
      · simp [h1, h2, h3]
      · simp [h1, h2, h3]

/-- The endpoint a loop iteration leaves behind: the line's own
contribution wins over the accumulated one. -/
theorem ovStep_endpoint (st : OvScan) (l : Str) :
    (ovStep st l).endpoint = Option.or (remoteEndpointOf l) st.endpoint := by
  unfold ovStep remoteEndpointOf
  by_cases h1 : startsWith (trim l) (str "remote ") = true
  · by_cases h2 : 2 ≤ (splitWhitespace (trim l)).length
    · simp [h1, h2]
    · simp [h1, h2]
  · by_cases h2 : startsWith (trim l) (str "dhcp-option DNS") = true
    · simp [h1, h2]
    · by_cases h3 : (trim l == str "<ca>" || startsWith (trim l) (str "ca ")) = true
      · simp [h1, h2, h3]
      · simp [h1, h2, h3]

/-- The private-key flag after the whole loop. -/
theorem foldl_wg_private (ls : List Str) (st : WgScan) :
    (ls.foldl wgStep st).has_private_key =
      (st.has_private_key ||
        ls.any fun l => startsWith (trim l) (str "PrivateKey")) := by
  induction ls generalizing st with
  | nil => simp
  | cons l t ih =>
    simp [List.foldl_cons, List.any_cons, ih, wgStep_private, Bool.or_assoc]

/-- The public-key flag after the whole loop. -/
theorem foldl_wg_public (ls : List Str) (st : WgScan) :
    (ls.foldl wgStep st).has_public_key =
      (st.has_public_key ||
        ls.any fun l => startsWith (trim l) (str "PublicKey")) := by
  induction ls generalizing st with
  | nil => simp
  | cons l t ih =>
    simp [List.foldl_cons, List.any_cons, ih, wgStep_public, Bool.or_assoc]

/-- The certificate flag after the whole loop. -/
theorem foldl_ov_ca (ls : List Str) (st : OvScan) :
    (ls.foldl ovStep st).has_ca = (st.has_ca || ls.any caLine) := by
  induction ls generalizing st with
  | nil => simp
  | cons l t ih =>
    simp [List.foldl_cons, List.any_cons, ih, ovStep_ca, Bool.or_assoc]

/-- The endpoint after the whole loop: the contribution of the last
`remote ` line that yields one, falling back to the initial value. -/
theorem foldl_ov_endpoint (ls : List Str) (st : OvScan) :
    (ls.foldl ovStep st).endpoint =
      Option.or ((ls.filterMap remoteEndpointOf).getLast?) st.endpoint := by
  induction ls generalizing st with
  | nil => simp
  | cons l t ih =>
    rw [List.foldl_cons, ih, ovStep_endpoint]
    cases hr : remoteEndpointOf l with
    | none => simp [List.filterMap_cons, hr]
    | some v =>
      simp only [List.filterMap_cons, hr]
      cases hf : t.filterMap remoteEndpointOf with
      | nil => simp
      | cons b bs =>
        have hs : (b :: bs).getLast?.isSome := by
          rw [List.getLast?_isSome]
          simp
        obtain ⟨w, hw⟩ := Option.isSome_iff_exists.mp hs
        simp [List.getLast?_cons_cons, hw]

/-- The panic-aware loop body never aborts and agrees with the plain one. -/
theorem ovStepChecked_eq (st : OvScan) (l : Str) :
    ovStepChecked st l = some (ovStep st l) := by
  unfold ovStepChecked ovStep
  by_cases h1 : startsWith (trim l) (str "remote ") = true
  · by_cases h2 : 2 ≤ (splitWhitespace (trim l)).length
    · rcases hp : splitWhitespace (trim l) with _ | ⟨a, _ | ⟨b, t⟩⟩
      · rw [hp] at h2
        simp at h2
      · rw [hp] at h2
        simp at h2
      · rw [hp] at h2
        simp [h1, h2, hp, List.getD]
    · simp [h1, h2]
  · by_cases h2 : startsWith (trim l) (str "dhcp-option DNS") = true
    · simp [h1, h2]
    · by_cases h3 : (trim l == str "<ca>" || startsWith (trim l) (str "ca ")) = true
      · simp [h1, h2, h3]
      · simp [h1, h2, h3]

/-- The panic-aware loop never aborts and agrees with the plain loop. -/
theorem foldlM_ovChecked (ls : List Str) (st : OvScan) :
    ls.foldlM ovStepChecked st = some (ls.foldl ovStep st) := by
  induction ls generalizing st with
  | nil => rfl
  | cons l t ih =>
    simp [List.foldlM_cons, ovStepChecked_eq, ih, List.foldl_cons]

/-- The WireGuard record carries a diagnostic exactly when invalid. -/
theorem wg_error_isSome (s : Str) :
    (parse_wireguard_config s).error.isSome =
      !(parse_wireguard_config s).is_valid := by
  unfold parse_wireguard_config
  set st := (rustLines s).foldl wgStep ⟨none, none, none, false, false⟩ with hst
  cases hv : st.has_private_key && st.has_public_key && st.endpoint.isSome <;>
    simp [hv]

/-- The OpenVPN record carries a diagnostic exactly when invalid. -/
theorem ovFinish_error_isSome (st : OvScan) :
    (ovFinish st).error.isSome = !(ovFinish st).is_valid := by
  unfold ovFinish
  cases hv : st.endpoint.isSome && st.has_ca <;> simp [hv]

/-! ### Claims -/

/-- C1: every input containing both literal markers `[Interface]` and
`[Peer]` is classified as WireGuard and handled by the WireGuard field
extraction, regardless of field completeness and of any OpenVPN markers
also present. -/
theorem C1_wireguard_classification (content : Str)
    (h1 : contains content (str "[Interface]") = true)
    (h2 : contains content (str "[Peer]") = true) :
    parse_vpn_config content = parse_wireguard_config content ∧
      (parse_vpn_config content).vpn_type = VpnType.WireGuard := by
  have hw : is_wireguard_content content = true := by
    unfold is_wireguard_content
    rw [h1, h2]
    rfl
  have he : parse_vpn_config content = parse_wireguard_config content := by
    unfold parse_vpn_config
    simp [hw]
  refine ⟨he, ?_⟩
  rw [he]
  rfl

/-- Witness for C1: the sample has both WireGuard markers, the OpenVPN
markers `client` and `remote `, and no required field. -/
theorem C1_witness :
    contains c1Sample (str "[Interface]") = true ∧
    contains c1Sample (str "[Peer]") = true ∧
    contains c1Sample (str "client") = true ∧
    hasPrivateKeyLine c1Sample = false ∧
    (parse_vpn_config c1Sample = parse_wireguard_config c1Sample ∧
      (parse_vpn_config c1Sample).vpn_type = VpnType.WireGuard) :=
  ⟨by decide, by decide, by decide, by decide,
    C1_wireguard_classification c1Sample (by decide) (by decide)⟩

/-- C2 counterexample: on an input with the two lines `remote a 1` and
`remote b 2`, taking the endpoint from the FIRST `remote ` line would
give `a:1`, but the parser returns `b:2` (each matching line overwrites
the endpoint, so the last one wins). -/
theorem C2_counterexample :
    (parse_vpn_config c2Cex).vpn_type = VpnType.OpenVPN ∧
    (parse_vpn_config c2Cex).endpoint = some (str "b:2") ∧
    (parse_vpn_config c2Cex).endpoint ≠ some (str "a:1") := by decide

/-- C2 (amended): for every OpenVPN-classified input the endpoint is the
contribution of the LAST line starting with `remote ` (after trimming):
that line is split on whitespace, token 1 is the host, token 2
(defaulting to `1194` when absent) is the port, and the endpoint is
`host`, a colon, and the port. -/
theorem C2_endpoint_from_last_remote (content : Str)
    (hw : is_wireguard_content content = false)
    (ho : is_openvpn_content content = true) :
    (parse_vpn_config content).endpoint =
      ((rustLines content).filterMap remoteEndpointOf).getLast? := by
  have he : parse_vpn_config content = parse_openvpn_config content := by
    unfold parse_vpn_config
    simp [hw, ho]
  rw [he]
  unfold parse_openvpn_config
  have hproj : (ovFinish ((rustLines content).foldl ovStep ⟨none, none, false⟩)).endpoint
      = ((rustLines content).foldl ovStep ⟨none, none, false⟩).endpoint := rfl
  rw [hproj, foldl_ov_endpoint]
  exact Option.or_none

/-- Witness for C2: a single `remote` line without a port token yields
the endpoint with the default port `1194`. -/
theorem C2_witness :
    is_wireguard_content c2Sample = false ∧
    is_openvpn_content c2Sample = true ∧
    (parse_vpn_config c2Sample).endpoint =
      ((rustLines c2Sample).filterMap remoteEndpointOf).getLast? ∧
    ((rustLines c2Sample).filterMap remoteEndpointOf).getLast? =
      some (str "vpn.example.com:1194") :=
  ⟨by decide, by decide,
    C2_endpoint_from_last_remote c2Sample (by decide) (by decide), by decide⟩

/-- C3 counterexample: `client xremote y` has no WireGuard marker, no
line starting with `remote ` (trimmed or not) and no `<ca>` opener, yet
the parser classifies it as OpenVPN, because the classification tests
for the SUBSTRING `remote ` anywhere in the text. -/
theorem C3_counterexample :
    contains c3Cex (str "[Interface]") = false ∧
    ((rustLines c3Cex).any fun l => startsWith l (str "remote ")) = false ∧
    ((rustLines c3Cex).any fun l => startsWith (trim l) (str "remote ")) = false ∧
    contains c3Cex (str "<ca>") = false ∧
    (parse_vpn_config c3Cex).vpn_type = VpnType.OpenVPN := by decide

/-- C3 (amended): for every input that is not WireGuard-classified, the
parser classifies the content as OpenVPN exactly when the text contains
the SUBSTRING `client` and either the substring `<ca>` or the substring
`remote ` (anywhere, not necessarily at the start of a line). -/
theorem C3_openvpn_classification (content : Str)
    (hw : is_wireguard_content content = false) :
    (parse_vpn_config content).vpn_type = VpnType.OpenVPN ↔
      (contains content (str "client") = true ∧
        (contains content (str "<ca>") = true ∨
          contains content (str "remote ") = true)) := by
  unfold parse_vpn_config
  by_cases ho : is_openvpn_content content = true
  · have hv : (parse_openvpn_config content).vpn_type = VpnType.OpenVPN := rfl
    have ho2 := ho
    unfold is_openvpn_content at ho2
    simp only [Bool.and_eq_true, Bool.or_eq_true] at ho2
    simp [hw, ho, hv, ho2]
  · have ho2 := ho
    unfold is_openvpn_content at ho2
    simp [hw, ho]
    cases hA : contains content (str "client") <;>
      cases hB : contains content (str "<ca>") <;>
        cases hC : contains content (str "remote ") <;>
          simp_all

/-- Witness for C3: `client` plus a `<ca>` opener is OpenVPN-classified. -/
theorem C3_witness :
    is_wireguard_content c3Sample = false ∧
    (parse_vpn_config c3Sample).vpn_type = VpnType.OpenVPN ∧
    ((parse_vpn_config c3Sample).vpn_type = VpnType.OpenVPN ↔
      (contains c3Sample (str "client") = true ∧
        (contains c3Sample (str "<ca>") = true ∨
          contains c3Sample (str "remote ") = true))) :=
  ⟨by decide, by decide, C3_openvpn_classification c3Sample (by decide)⟩

/-- C9: parsing is total.  The panic-aware model, in which the one
guarded indexing operation of the source would surface as `none`, always
returns the record of the plain parser: no input (malformed lines
without an equals sign, `remote` lines with missing tokens, any text at
all) can make the parser abort, and it always returns a record. -/
theorem C9_parse_total (content : Str) :
    parse_vpn_config_checked content = some (parse_vpn_config content) := by
  unfold parse_vpn_config_checked parse_vpn_config parse_openvpn_config_checked
    parse_openvpn_config
  by_cases hw : is_wireguard_content content = true
  · simp [hw]
  · by_cases ho : is_openvpn_content content = true
    · simp [hw, ho, foldlM_ovChecked]
    · simp [hw, ho]

/-- C10: for every input, the returned record carries a diagnostic
string exactly when the validity flag is false; all three branches
(WireGuard, OpenVPN, unknown format) maintain this. -/
theorem C10_error_iff_invalid (content : Str) :
    (parse_vpn_config content).error.isSome = true ↔
      (parse_vpn_config content).is_valid = false := by
  have h : (parse_vpn_config content).error.isSome =
      !(parse_vpn_config content).is_valid := by
    unfold parse_vpn_config
    by_cases hw : is_wireguard_content content = true
    · simp [hw, wg_error_isSome]
    · by_cases ho : is_openvpn_content content = true
      · simp [hw, ho, parse_openvpn_config, ovFinish_error_isSome]
      · simp [hw, ho]
  rw [h]
  cases hv : (parse_vpn_config content).is_valid <;> simp

/-- C4: for every WireGuard-classified input, the record is valid
exactly when a trimmed line starting with `PrivateKey` was seen, one
starting with `PublicKey` was seen, and an endpoint value was found; on
invalidity the diagnostic names every missing required field, joined
with a comma and a space. -/
theorem C4_wireguard_validity (content : Str)
    (hw : is_wireguard_content content = true) :
    ((parse_vpn_config content).is_valid = true ↔
      (hasPrivateKeyLine content = true ∧ hasPublicKeyLine content = true ∧
        (parse_vpn_config content).endpoint.isSome = true)) ∧
    ((parse_vpn_config content).is_valid = false →
      (parse_vpn_config content).error =
        some (str "Missing required fields: " ++ joinSep (str ", ")
          ((if hasPrivateKeyLine content then [] else [str "PrivateKey"]) ++
           (if hasPublicKeyLine content then [] else [str "PublicKey"]) ++
           (if (parse_vpn_config content).endpoint.isSome then []
            else [str "Endpoint"])))) := by
  have he : parse_vpn_config content = parse_wireguard_config content := by
    unfold parse_vpn_config
    simp [hw]
  rw [he]
  set st := (rustLines content).foldl wgStep ⟨none, none, none, false, false⟩
    with hst
  have h1 : (parse_wireguard_config content).is_valid =
      (st.has_private_key && st.has_public_key && st.endpoint.isSome) := rfl
  have h2 : (parse_wireguard_config content).endpoint = st.endpoint := rfl
  have h3 : (parse_wireguard_config content).error =
      (if !(st.has_private_key && st.has_public_key && st.endpoint.isSome) then
        some (str "Missing required fields: " ++ joinSep (str ", ")
          ((if !st.has_private_key then [str "PrivateKey"] else []) ++
           (if !st.has_public_key then [str "PublicKey"] else []) ++
           (if st.endpoint.isNone then [str "Endpoint"] else [])))
      else none) := rfl
  have hp : hasPrivateKeyLine content = st.has_private_key := by
    unfold hasPrivateKeyLine
    rw [hst, foldl_wg_private]
    simp
  have hq : hasPublicKeyLine content = st.has_public_key := by
    unfold hasPublicKeyLine
    rw [hst, foldl_wg_public]
    simp
  rw [h1, h2, h3, hp, hq]
  cases hA : st.has_private_key <;> cases hB : st.has_public_key <;>
    cases hE : st.endpoint <;> simp [hA, hB, hE]

/-- Witness for C4: a WireGuard input with only a public key is invalid,
and the diagnostic names the missing `PrivateKey` and `Endpoint`. -/
theorem C4_witness :
    is_wireguard_content c4Sample = true ∧
    hasPrivateKeyLine c4Sample = false ∧
    (parse_vpn_config c4Sample).error =
      some (str "Missing required fields: PrivateKey, Endpoint") ∧
    (((parse_vpn_config c4Sample).is_valid = true ↔
      (hasPrivateKeyLine c4Sample = true ∧ hasPublicKeyLine c4Sample = true ∧
        (parse_vpn_config c4Sample).endpoint.isSome = true)) ∧
    ((parse_vpn_config c4Sample).is_valid = false →
      (parse_vpn_config c4Sample).error =
        some (str "Missing required fields: " ++ joinSep (str ", ")
          ((if hasPrivateKeyLine c4Sample then [] else [str "PrivateKey"]) ++
           (if hasPublicKeyLine c4Sample then [] else [str "PublicKey"]) ++
           (if (parse_vpn_config c4Sample).endpoint.isSome then []
            else [str "Endpoint"]))))) :=
  ⟨by decide, by decide, by decide, C4_wireguard_validity c4Sample (by decide)⟩

/-- C5: for every OpenVPN-classified input, the record is valid exactly
when an endpoint was found and a certificate indicator (a trimmed line
equal to `<ca>` or starting with `ca `) was seen; on invalidity the
diagnostic names the missing `remote server` and/or `CA certificate`. -/
theorem C5_openvpn_validity (content : Str)
    (hw : is_wireguard_content content = false)
    (ho : is_openvpn_content content = true) :
    ((parse_vpn_config content).is_valid = true ↔
      ((parse_vpn_config content).endpoint.isSome = true ∧
        hasCaLine content = true)) ∧
    ((parse_vpn_config content).is_valid = false →
      (parse_vpn_config content).error =
        some (str "Missing required fields: " ++ joinSep (str ", ")
          ((if (parse_vpn_config content).endpoint.isSome then []
            else [str "remote server"]) ++
           (if hasCaLine content then [] else [str "CA certificate"])))) := by
  have he : parse_vpn_config content = parse_openvpn_config content := by
    unfold parse_vpn_config
    simp [hw, ho]
  rw [he]
  set st := (rustLines content).foldl ovStep ⟨none, none, false⟩ with hst
  have h1 : (parse_openvpn_config content).is_valid =
      (st.endpoint.isSome && st.has_ca) := rfl
  have h2 : (parse_openvpn_config content).endpoint = st.endpoint := rfl
  have h3 : (parse_openvpn_config content).error =
      (if !(st.endpoint.isSome && st.has_ca) then
        some (str "Missing required fields: " ++ joinSep (str ", ")
          ((if st.endpoint.isNone then [str "remote server"] else []) ++
           (if !st.has_ca then [str "CA certificate"] else [])))
      else none) := rfl
  have hc : hasCaLine content = st.has_ca := by
    unfold hasCaLine
    rw [hst, foldl_ov_ca]
    simp
  rw [h1, h2, h3, hc]
  cases hE : st.endpoint <;> cases hB : st.has_ca <;> simp [hE, hB]

/-- Witness for C5: `remote vpn.example.com 443` with no certificate
yields the endpoint with port 443 but an invalid record whose diagnostic
names the missing CA certificate. -/
theorem C5_witness :
    is_wireguard_content c5Sample = false ∧
    is_openvpn_content c5Sample = true ∧
    (parse_vpn_config c5Sample).endpoint = some (str "vpn.example.com:443") ∧
    (parse_vpn_config c5Sample).error =
      some (str "Missing required fields: CA certificate") ∧
    (((parse_vpn_config c5Sample).is_valid = true ↔
      ((parse_vpn_config c5Sample).endpoint.isSome = true ∧
        hasCaLine c5Sample = true)) ∧
    ((parse_vpn_config c5Sample).is_valid = false →
      (parse_vpn_config c5Sample).error =
        some (str "Missing required fields: " ++ joinSep (str ", ")
          ((if (parse_vpn_config c5Sample).endpoint.isSome then []
            else [str "remote server"]) ++
           (if hasCaLine c5Sample then [] else [str "CA certificate"]))))) :=
  ⟨by decide, by decide, by decide, by decide,
    C5_openvpn_validity c5Sample (by decide) (by decide)⟩

/-- C6: whenever `connect_wireguard` returns a success value, that value
has status Connected, kind WireGuard and the tunnel name derived from
the config file's base name (or the fixed default `claudetv_vpn`), with
no error — in every world, including those where the post-launch service
query finds no RUNNING indicator for the tunnel. -/
theorem C6_connect_reports_connected (w : WgConnectWorld) (config_path : Str)
    (r : VpnStatusInfo) (h : connect_wireguard w config_path = Except.ok r) :
    r = { status := VpnStatus.Connected, vpn_type := some VpnType.WireGuard,
          tunnel_name := some (wgTunnelName config_path), error := none } := by
  unfold connect_wireguard at h
  repeat' split at h
  all_goals simp_all

/-- Witness for C6: a world where the launcher succeeds, the service
query reports a non-RUNNING state, and the path `C:\vpn configs\home.conf`
derives the tunnel name `home`. -/
theorem C6_witness :
    connect_wireguard c6World c6Path =
      Except.ok { status := VpnStatus.Connected,
                  vpn_type := some VpnType.WireGuard,
                  tunnel_name := some (str "home"), error := none } ∧
    contains c6ScOut (str "RUNNING") = false ∧
    ({ status := VpnStatus.Connected, vpn_type := some VpnType.WireGuard,
       tunnel_name := some (str "home"), error := none } : VpnStatusInfo) =
      { status := VpnStatus.Connected, vpn_type := some VpnType.WireGuard,
        tunnel_name := some (wgTunnelName c6Path), error := none } :=
  ⟨rfl, by decide, C6_connect_reports_connected c6World c6Path _ rfl⟩

/-- C7 counterexample: with no tunnel name supplied and the kind set to
WireGuard, the process table listing `openvpn.exe` is ignored (the
OpenVPN check is gated on the kind), so the code reports Disconnected
even though the process table lists the executable — the claim's
unconditional "Connected if the process table lists openvpn.exe" fails. -/
theorem C7_counterexample :
    tasklistHasOpenvpn c7World = true ∧
    get_vpn_status c7World none (some VpnType.WireGuard) =
      { status := VpnStatus.Disconnected, vpn_type := none,
        tunnel_name := none, error := none } := by decide

/-- C7 (amended): `get_vpn_status` is total and returns Connected with
kind WireGuard and the given tunnel name when a tunnel name is supplied,
the kind is WireGuard or unspecified, and the service query reports
RUNNING; otherwise Connected with kind OpenVPN and name `openvpn` when
the kind is OpenVPN or unspecified and the process table lists
`openvpn.exe`; otherwise Disconnected with kind, tunnel name and error
all unset. -/
theorem C7_status_characterization (w : StatusWorld)
    (tunnel_name : Option Str) (vpn_type : Option VpnType) :
    get_vpn_status w tunnel_name vpn_type =
      (if tunnel_name.isSome = true ∧
          (vpn_type = some VpnType.WireGuard ∨ vpn_type = none) ∧
          scRunning w = true then
        { status := VpnStatus.Connected, vpn_type := some VpnType.WireGuard,
          tunnel_name := tunnel_name, error := none }
      else if (vpn_type = some VpnType.OpenVPN ∨ vpn_type = none) ∧
          tasklistHasOpenvpn w = true then
        { status := VpnStatus.Connected, vpn_type := some VpnType.OpenVPN,
          tunnel_name := some (str "openvpn"), error := none }
      else
        { status := VpnStatus.Disconnected, vpn_type := none,
          tunnel_name := none, error := none }) := by
  rcases w with ⟨sc, tl⟩
  rcases tunnel_name with _ | name <;>
    rcases vpn_type with _ | (_ | _) <;>
      rcases sc with e1 | o1 <;>
        rcases tl with e2 | o2 <;>
          simp [get_vpn_status, scRunning, tasklistHasOpenvpn] <;>
            split_ifs <;>
              simp_all

/-- C8: whenever `disconnect_vpn` (for either kind) returns a success
value, that value has status Disconnected with kind, tunnel name and
error all unset; and whenever the external launcher ran to completion —
whatever error text it produced — the call succeeds with that value. -/
theorem C8_disconnect_reports_disconnected (ps : CmdResult) (tn : Str)
    (k : VpnType) :
    (∀ r, disconnect_vpn ps tn k = Except.ok r → r = disconnectedInfo) ∧
    (∀ out : CmdOutput,
      disconnect_vpn (Except.ok out) tn k = Except.ok disconnectedInfo) := by
  constructor
  · intro r h
    cases k <;> cases ps <;>
      simp_all [disconnect_vpn, disconnect_wireguard, disconnect_openvpn]
  · intro out
    cases k <;> rfl

/-- Witness for C8: a completed launcher run with non-benign error text
still yields a successful Disconnected result. -/
theorem C8_witness :
    disconnect_vpn c8Launch (str "home") VpnType.WireGuard =
      Except.ok disconnectedInfo ∧
    disconnectedInfo = disconnectedInfo :=
  ⟨(C8_disconnect_reports_disconnected c8Launch (str "home")
      VpnType.WireGuard).2
    { success := false, stdout := [],
      stderr := str "uninstall failed: access denied" },
   (C8_disconnect_reports_disconnected c8Launch (str "home")
      VpnType.WireGuard).1 disconnectedInfo (by rfl)⟩

end ClaudeTv
